import Mathlib

/-!
Shallow embedding of the `recursive-descent-parser` repository
(`src/tokenizer.rs` and `src/parser.rs`): a character-level tokenizer and
an LL(1) recursive-descent parser producing a `Literal` tree.
-/

namespace RDP

/-!
`Literal` / `LiteralValue` mirror the types of `src/parser.rs`.  The Rust
`LiteralType` enum has the single constructor `Type(String)`, so it is
embedded as a plain `String` field; `Box` is only a heap indirection and is
dropped.
-/

mutual

inductive Literal where
  | mk (literal_type : String) (value : LiteralValue)

inductive LiteralValue where
  | Value (s : String)
  | NestedValue (v : Option Literal)
  | NestedValueList (l : List (Option Literal))

end

/-!
Structural equality on `LiteralValue`, mirroring the derived `PartialEq`
used by `lookahead.value == *stop_lookahead` in `Parser::statement_list`.
-/

mutual

def Literal.beq : Literal → Literal → Bool
  | .mk t1 v1, .mk t2 v2 => t1 == t2 && LiteralValue.beq v1 v2

def LiteralValue.beq : LiteralValue → LiteralValue → Bool
  | .Value a, .Value b => a == b
  | .NestedValue a, .NestedValue b => optLiteralBeq a b
  | .NestedValueList a, .NestedValueList b => listOptLiteralBeq a b
  | _, _ => false

def optLiteralBeq : Option Literal → Option Literal → Bool
  | none, none => true
  | some a, some b => Literal.beq a b
  | _, _ => false

def listOptLiteralBeq : List (Option Literal) → List (Option Literal) → Bool
  | [], [] => true
  | a :: as, b :: bs => optLiteralBeq a b && listOptLiteralBeq as bs
  | _, _ => false

end

/-- Field projection for `Literal.literal_type`. -/
def Literal.literal_type : Literal → String
  | .mk t _ => t

/-- Field projection for `Literal.value`. -/
def Literal.value : Literal → LiteralValue
  | .mk _ v => v

/-- Errors of the embedded pipeline.  The Rust code signals these by
`panic!`/`expect` with a formatted message or by an out-of-bounds slice
index; each constructor carries exactly the data that the corresponding
Rust message interpolates.  `OutOfFuel` is an artefact of the fuelled
embedding of the mutually recursive parser functions. -/
inductive PError where
  | IndexOutOfBounds (idx : Nat)
  | UnexpectedToken (found : LiteralValue) (expected : String)
  | UnexpectedEndOfInput (expected : String)
  | UnexpectedLiteralProduction
  | OutOfFuel

/-- Mirrors `Tokenizer` from `src/tokenizer.rs`.  The Rust code stores the
source as `LiteralType::Type(String)` and re-collects it into a
`Vec<char>` on every call; we keep the character list directly. -/
structure Tokenizer where
  string : List Char
  cursor : Nat
  deriving DecidableEq

/-- Mirrors `Tokenizer::new`. -/
def Tokenizer.new (s : String) : Tokenizer :=
  { string := s.data, cursor := 0 }

/-- Mirrors `Tokenizer::has_more_tokens`. -/
def Tokenizer.has_more_tokens (t : Tokenizer) : Bool :=
  t.cursor < t.string.length

/-- Mirrors `Tokenizer::is_eof`. -/
def Tokenizer.is_eof (t : Tokenizer) : Bool :=
  t.cursor == t.string.length

/-- Structural worker for `scanDigits`.  The `gas` argument is always
called with `chars.length - cursor`, an upper bound on the remaining loop
iterations, so the `gas = 0` fallthrough coincides with the loop's
`cursor < string.len()` exit. -/
def scanDigitsGo : Nat → List Char → Nat → String → String × Nat
  | 0, _, cursor, num => (num, cursor)
  | gas + 1, chars, cursor, num =>
    if h : cursor < chars.length then
      let c := chars.get ⟨cursor, h⟩
      if c.isDigit then scanDigitsGo gas chars (cursor + 1) (num.push c)
      else (num, cursor)
    else (num, cursor)

/-- The number-scanning loop of `get_next_token`:
`while self.cursor < string.len() && string[self.cursor].is_digit(10)`.
Returns the accumulated digit string and the final cursor. -/
def scanDigits (chars : List Char) (cursor : Nat) (num : String) : String × Nat :=
  scanDigitsGo (chars.length - cursor) chars cursor num

/-- Structural worker for `scanStringChars`; as in `scanDigitsGo`, `gas` is
always `chars.length - cursor`, so `gas = 0` means the cursor is at or past
the end and the Rust loop condition's index read is out of bounds. -/
def scanStringGo : Nat → List Char → Nat → String → Except Nat (String × Nat)
  | 0, _, cursor, _ => .error cursor
  | gas + 1, chars, cursor, s =>
    if h : cursor < chars.length then
      let c := chars.get ⟨cursor, h⟩
      if c = '"' then .ok (s, cursor)
      else scanStringGo gas chars (cursor + 1) (s.push c)
    else .error cursor

/-- The string-scanning loop of `get_next_token`:
`while string[self.cursor] != '"' && !self.is_eof()`.
The Rust condition indexes `string[self.cursor]` before the end-of-input
check, so when the cursor reaches the end without a closing quote the read
is out of bounds; that branch is modelled by `Except.error cursor` carrying
the offending index.  On success, returns the accumulated characters and
the cursor of the closing quote. -/
def scanStringChars (chars : List Char) (cursor : Nat) (s : String) :
    Except Nat (String × Nat) :=
  scanStringGo (chars.length - cursor) chars cursor s

/-- Mirrors `Tokenizer::get_next_token`.  Note: the Rust source writes the
plain `String` `num`/`s` into the `value` field whose declared type is
`Box<LiteralValue>`; the evident reading `LiteralValue::Value(..)` is used.
Characters that match no rule fall through to the trailing `None` with the
cursor unchanged. -/
def Tokenizer.get_next_token (t : Tokenizer) : Except PError (Option Literal × Tokenizer) :=
  if h : t.cursor < t.string.length then
    let c := t.string.get ⟨t.cursor, h⟩
    if c.isDigit then
      let (num, cursor') := scanDigits t.string t.cursor ""
      .ok (some (.mk "NUMBER" (.Value num)), { t with cursor := cursor' })
    else if c = '"' then
      match scanStringChars t.string (t.cursor + 1) "" with
      | .error idx => .error (.IndexOutOfBounds idx)
      | .ok (s, closeIdx) =>
          .ok (some (.mk "STRING" (.Value s)), { t with cursor := closeIdx + 1 })
    else .ok (none, t)
  else .ok (none, t)

/-- Parser state: the `Parser` struct of `src/parser.rs` minus its `string`
field, which `parse` writes but nothing ever reads. -/
structure ParserState where
  tokenizer : Tokenizer
  lookahead : Option Literal

/-- Mirrors `Parser::eat`.  The Rust `Err(String)` messages interpolate the
found token's `value` and the expected `token_type`; the corresponding
`PError` constructors carry the same data.  Call sites in the grammar
functions wrap `eat` in `.expect(..)`, turning the error into an abort; in
the embedding the error simply propagates through `Except`. -/
def eat (token_type : String) (s : ParserState) :
    Except PError (Literal × ParserState) :=
  match s.lookahead with
  | some token =>
    if token.literal_type ≠ token_type then
      .error (.UnexpectedToken token.value token_type)
    else
      match s.tokenizer.get_next_token with
      | .error e => .error e
      | .ok (next, t') => .ok (token, { tokenizer := t', lookahead := next })
  | none => .error (.UnexpectedEndOfInput token_type)

/-- Mirrors `Parser::numeric_literal`; its `Err => panic` branch propagates
the `eat` error. -/
def numeric_literal (s : ParserState) : Except PError (Literal × ParserState) :=
  match eat "NUMBER" s with
  | .error e => .error e
  | .ok (token, s1) => .ok (.mk "NumericLiteral" token.value, s1)

/-- Mirrors `Parser::string_literal`; its `Err => panic` branch propagates
the `eat` error. -/
def string_literal (s : ParserState) : Except PError (Literal × ParserState) :=
  match eat "STRING" s with
  | .error e => .error e
  | .ok (token, s1) => .ok (.mk "StringLiteral" token.value, s1)

/-- Mirrors `Parser::literal`.  The leading `self.lookahead.clone()?`
returns `None` from the function when there is no lookahead; the wildcard
arm aborts with the "unexpected literal production" message. -/
def literal (s : ParserState) : Except PError (Option Literal × ParserState) :=
  match s.lookahead with
  | none => .ok (none, s)
  | some tok =>
    if tok.literal_type = "NUMBER" then
      match numeric_literal s with
      | .error e => .error e
      | .ok (lit, s1) => .ok (some lit, s1)
    else if tok.literal_type = "STRING" then
      match string_literal s with
      | .error e => .error e
      | .ok (lit, s1) => .ok (some lit, s1)
    else .error .UnexpectedLiteralProduction

/-!
The mutually recursive grammar functions of `src/parser.rs`.  Rust's
recursion and `while` loops are embedded with an explicit fuel parameter
that strictly decreases on every call; `while` loops become the `_loop`
helpers.  Each function otherwise follows its Rust counterpart
line by line.
-/

mutual

def statement_list : Nat → Option LiteralValue → ParserState →
    Except PError (List (Option Literal) × ParserState)
  | 0, _, _ => .error .OutOfFuel
  | fuel + 1, stop_lookahead, s =>
    match statement fuel s with
    | .error e => .error e
    | .ok (st, s1) => statement_list_loop fuel stop_lookahead [st] s1

def statement_list_loop : Nat → Option LiteralValue → List (Option Literal) →
    ParserState → Except PError (List (Option Literal) × ParserState)
  | 0, _, _, _ => .error .OutOfFuel
  | fuel + 1, stop_lookahead, acc, s =>
    match s.lookahead with
    | none => .ok (acc, s)
    | some lookahead =>
      match stop_lookahead with
      | some stop =>
        if LiteralValue.beq lookahead.value stop then .ok (acc, s)
        else
          match statement fuel s with
          | .error e => .error e
          | .ok (st, s1) => statement_list_loop fuel stop_lookahead (acc ++ [st]) s1
      | none =>
        match statement fuel s with
        | .error e => .error e
        | .ok (st, s1) => statement_list_loop fuel stop_lookahead (acc ++ [st]) s1

def statement : Nat → ParserState → Except PError (Option Literal × ParserState)
  | 0, _ => .error .OutOfFuel
  | fuel + 1, s =>
    match s.lookahead with
    | none => .ok (none, s)
    | some tok =>
      if tok.literal_type = "\x7b" then block_statement fuel s
      else expression_statement fuel s

def block_statement : Nat → ParserState → Except PError (Option Literal × ParserState)
  | 0, _ => .error .OutOfFuel
  | fuel + 1, s =>
    match eat "\x7b" s with
    | .error e => .error e
    | .ok (_, s1) =>
      match s1.lookahead with
      | none => .ok (none, s1)
      | some tok =>
        match (if tok.literal_type ≠ "\x7d" then
                 statement_list fuel (some (.Value "\x7d")) s1
               else .ok ([], s1)) with
        | .error e => .error e
        | .ok (body, s2) =>
          match eat "\x7d" s2 with
          | .error e => .error e
          | .ok (_, s3) => .ok (some (.mk "BlockStatement" (.NestedValueList body)), s3)

def expression_statement : Nat → ParserState →
    Except PError (Option Literal × ParserState)
  | 0, _ => .error .OutOfFuel
  | fuel + 1, s =>
    match expression fuel s with
    | .error e => .error e
    | .ok (expr, s1) =>
      match eat ";" s1 with
      | .error e => .error e
      | .ok (_, s2) => .ok (some (.mk "ExpressionStatement" (.NestedValue expr)), s2)

def expression : Nat → ParserState → Except PError (Option Literal × ParserState)
  | 0, _ => .error .OutOfFuel
  | fuel + 1, s => additive_expression fuel s

def additive_expression : Nat → ParserState →
    Except PError (Option Literal × ParserState)
  | 0, _ => .error .OutOfFuel
  | fuel + 1, s => binary_expression fuel "ADDITIVE_OPERATOR" s

def multiplicative_expression : Nat → ParserState →
    Except PError (Option Literal × ParserState)
  | 0, _ => .error .OutOfFuel
  | fuel + 1, s => binary_expression fuel "MULTIPLICATIVE_OPERATOR" s

def binary_expression : Nat → String → ParserState →
    Except PError (Option Literal × ParserState)
  | 0, _, _ => .error .OutOfFuel
  | fuel + 1, operator_token, s =>
    match (match operator_token with
           | "ADDITIVE_OPERATOR" => multiplicative_expression fuel s
           | "MULTIPLICATIVE_OPERATOR" => primary_expression fuel s
           | _ => .ok (none, s)) with
    | .error e => .error e
    | .ok (left, s1) => binary_expression_loop fuel operator_token left s1

def binary_expression_loop : Nat → String → Option Literal → ParserState →
    Except PError (Option Literal × ParserState)
  | 0, _, _, _ => .error .OutOfFuel
  | fuel + 1, operator_token, left, s =>
    match s.lookahead with
    | none => .ok (none, s)
    | some tok =>
      if tok.literal_type = operator_token then
        match eat operator_token s with
        | .error e => .error e
        | .ok (operator, s1) =>
          match (match operator_token with
                 | "ADDITIVE_OPERATOR" => multiplicative_expression fuel s1
                 | "MULTIPLICATIVE_OPERATOR" => primary_expression fuel s1
                 | _ => .ok (none, s1)) with
          | .error e => .error e
          | .ok (right, s2) =>
            match left with
            | none => .ok (none, s2)
            | some l =>
              match right with
              | none => .ok (none, s2)
              | some r =>
                binary_expression_loop fuel operator_token
                  (some (.mk "BinaryExpression" (.NestedValueList
                    [some (.mk "Left" l.value),
                     some (.mk "Operator" operator.value),
                     some (.mk "Right" r.value)]))) s2
      else .ok (left, s)

def primary_expression : Nat → ParserState →
    Except PError (Option Literal × ParserState)
  | 0, _ => .error .OutOfFuel
  | fuel + 1, s =>
    match s.lookahead with
    | none => .ok (none, s)
    | some tok =>
      if tok.literal_type = "(" then parenthesised_expression fuel s
      else literal s

def parenthesised_expression : Nat → ParserState →
    Except PError (Option Literal × ParserState)
  | 0, _ => .error .OutOfFuel
  | fuel + 1, s =>
    match eat "(" s with
    | .error e => .error e
    | .ok (_, s1) =>
      match expression fuel s1 with
      | .error e => .error e
      | .ok (expr, s2) =>
        match eat ")" s2 with
        | .error e => .error e
        | .ok (_, s3) => .ok (expr, s3)

end

/-- Mirrors `Parser::program`. -/
def program (fuel : Nat) (s : ParserState) :
    Except PError (Option Literal × ParserState) :=
  match statement_list fuel none s with
  | .error e => .error e
  | .ok (l, s1) => .ok (some (.mk "Program" (.NestedValueList l)), s1)

/-- Mirrors `Parser::parse` on a freshly constructed `Parser` (so the
tokenizer's cursor starts at 0): prime the lookahead, then parse a
`Program`.  The returned value is the `Option<Literal>` result; the final
parser state is internal. -/
def parse (fuel : Nat) (string : String) : Except PError (Option Literal) :=
  match (Tokenizer.new string).get_next_token with
  | .error e => .error e
  | .ok (look, t1) =>
    match program fuel { tokenizer := t1, lookahead := look } with
    | .error e => .error e
    | .ok (ast, _) => .ok ast

/-!
Helper lemmas shared by the claim theorems.
-/

/-- Comparing a `LiteralValue` against a `Value` literal with the embedded
structural equality agrees with propositional equality. -/
theorem beq_value_iff (v : LiteralValue) (s : String) :
    LiteralValue.beq v (.Value s) = true ↔ v = .Value s := by
  cases v <;> simp [LiteralValue.beq]

/-- A run of the string-literal scan that never meets a closing quote ends
in the out-of-bounds branch, at an index no smaller than the buffer
length. -/
theorem scanStringGo_no_quote :
    ∀ (gas : Nat) (chars : List Char) (cursor : Nat) (acc : String),
      chars.length ≤ gas + cursor →
      (∀ (i : Nat) (h : i < chars.length), cursor ≤ i → chars.get ⟨i, h⟩ ≠ '"') →
      ∃ idx, chars.length ≤ idx ∧ scanStringGo gas chars cursor acc = .error idx := by
  intro gas
  induction gas with
  | zero =>
    intro chars cursor acc hle _
    exact ⟨cursor, by simpa using hle, rfl⟩
  | succ g ih =>
    intro chars cursor acc hle hq
    by_cases h : cursor < chars.length
    · have hne : ¬ chars[cursor] = '"' := by simpa using hq cursor h le_rfl
      have step := ih chars (cursor + 1) (acc.push chars[cursor])
        (by omega) (fun i hi hci => hq i hi (by omega))
      obtain ⟨idx, hidx, heq⟩ := step
      exact ⟨idx, hidx, by simpa [scanStringGo, h, hne] using heq⟩
    · exact ⟨cursor, by omega, by simp [scanStringGo, h]⟩

/-!
The claims.
-/

/-- Claim C1: the claim says parsing `"2 + 2 * 2;"` yields the
`BinaryExpression` tree `2 + (2 * 2)`.  On the code as written the
tokenizer has no rules for whitespace or operators, so after the first
`NUMBER` token the lookahead silently becomes `none` and the parse
aborts in `eat(";")` with an unexpected-end-of-input error, contradicting
the repository's own `test_math` test. -/
theorem claim_C1_precedence_input_aborts :
    parse 32 "2 + 2 * 2;" = .error (.UnexpectedEndOfInput ";") := rfl

/-- Claim C2: the claim says `get_next_token` tries whitespace, comment,
punctuation, operator, number and string rules in priority order, so on
`";"` it returns a token of kind `;` and on leading whitespace or a
comment it skips the run.  The code has only the number and string rules:
on `";"`, `" 42;"`, `"+"` and `"// c"` it returns no token at all and
leaves the cursor unmoved, contradicting the repository's own tests, which
require those tokens. -/
theorem claim_C2_tokenizer_lacks_punctuation_rules :
    (Tokenizer.new ";").get_next_token = .ok (none, Tokenizer.new ";")
    ∧ (Tokenizer.new " 42;").get_next_token = .ok (none, Tokenizer.new " 42;")
    ∧ (Tokenizer.new "+").get_next_token = .ok (none, Tokenizer.new "+")
    ∧ (Tokenizer.new "// c").get_next_token = .ok (none, Tokenizer.new "// c") :=
  ⟨rfl, rfl, rfl, rfl⟩

/-- Claim C3: the claim says parsing `"@;"` raises a lexical error at
position 0.  The code's `get_next_token` has no failure path for an
unmatched character: it falls through to `None`, so the parse returns a
`Program` whose single statement is `None` instead of any error. -/
theorem claim_C3_lexical_error_not_raised :
    parse 32 "@;" = .ok (some (.mk "Program" (.NestedValueList [none]))) := rfl

/-- Claim C4: the `eat(expected_kind)` contract.  On a matching lookahead
it returns that token and refills the lookahead from the tokenizer
(possibly to none); on a mismatch it fails naming the found token's value
and the expected kind; with no lookahead it fails with an
unexpected-end-of-input error naming the expected kind; and parsing
`"42"` (missing `;`) fails with the unexpected-end-of-input error
naming `;`. -/
theorem claim_C4_eat_contract :
    (∀ (s : ParserState) (kind : String) (tok : Literal) (next : Option Literal)
        (t' : Tokenizer),
        s.lookahead = some tok → tok.literal_type = kind →
        s.tokenizer.get_next_token = .ok (next, t') →
        eat kind s = .ok (tok, { tokenizer := t', lookahead := next }))
    ∧ (∀ (s : ParserState) (kind : String) (tok : Literal),
        s.lookahead = some tok → tok.literal_type ≠ kind →
        eat kind s = .error (.UnexpectedToken tok.value kind))
    ∧ (∀ (s : ParserState) (kind : String),
        s.lookahead = none →
        eat kind s = .error (.UnexpectedEndOfInput kind))
    ∧ parse 32 "42" = .error (.UnexpectedEndOfInput ";") := by
  refine ⟨?_, ?_, ?_, rfl⟩
  · intro s kind tok next t' h1 h2 h3
    simp [eat, h1, h2, h3]
  · intro s kind tok h1 h2
    simp [eat, h1, h2]
  · intro s kind h1
    simp [eat, h1]

/-- Witness for claim C4 at concrete states: a matching `NUMBER` lookahead
is consumed with the lookahead refilled to none; a `NUMBER` lookahead
fails against expected `;` naming the found value; an absent lookahead
fails naming `;`. -/
theorem claim_C4_eat_contract_witness :
    eat "NUMBER" { tokenizer := { string := [], cursor := 0 },
                   lookahead := some (.mk "NUMBER" (.Value "42")) }
      = .ok (.mk "NUMBER" (.Value "42"),
             { tokenizer := { string := [], cursor := 0 }, lookahead := none })
    ∧ eat ";" { tokenizer := { string := [], cursor := 0 },
                lookahead := some (.mk "NUMBER" (.Value "42")) }
      = .error (.UnexpectedToken (.Value "42") ";")
    ∧ eat ";" { tokenizer := { string := [], cursor := 0 }, lookahead := none }
      = .error (.UnexpectedEndOfInput ";") :=
  ⟨claim_C4_eat_contract.1 _ "NUMBER" _ none _ rfl rfl rfl,
   claim_C4_eat_contract.2.1 _ ";" (.mk "NUMBER" (.Value "42")) rfl (by decide),
   claim_C4_eat_contract.2.2.1 _ ";" rfl⟩

/-- Claim C5: the claim says parsing `"2 - 2 - 2;"` yields the
left-associated tree `(2 - 2) - 2`.  On the code as written the tokenizer
produces no `ADDITIVE_OPERATOR` or whitespace tokens, so the parse aborts
in `eat(";")` with an unexpected-end-of-input error instead of building
any tree. -/
theorem claim_C5_left_assoc_input_aborts :
    parse 32 "2 - 2 - 2;" = .error (.UnexpectedEndOfInput ";") := rfl

/-- Claim C6: the claim says every token's text is a non-empty substring
of the source, with string literals keeping both quotes.  The code stores
a string literal's characters without the surrounding quotes: scanning
the source consisting of a quoted `hello` yields the value `hello`, and
scanning two bare quotes yields the empty value, so the text neither keeps
the quotes nor is always non-empty, and the concatenation cannot
reconstruct the source. -/
theorem claim_C6_string_token_drops_quotes :
    (Tokenizer.new "\"hello\"").get_next_token
      = .ok (some (.mk "STRING" (.Value "hello")),
             { string := "\"hello\"".data, cursor := 7 })
    ∧ (Tokenizer.new "\"\"").get_next_token
      = .ok (some (.mk "STRING" (.Value "")),
             { string := "\"\"".data, cursor := 2 })
    ∧ ("hello" : String) ≠ "\"hello\"" :=
  ⟨rfl, rfl, by decide⟩

/-- Claim C7: the statement-list stop condition compares the lookahead's
stored value to the sentinel value, not its kind: with a present lookahead
whose value is the closing-brace string the loop stops immediately,
whatever the token's kind (including a `STRING` token), and with any
other value it parses another statement and continues. -/
theorem claim_C7_statement_list_stop_compares_value :
    (∀ (fuel : Nat) (acc : List (Option Literal)) (s : ParserState) (tok : Literal),
        s.lookahead = some tok → tok.value = .Value "\x7d" →
        statement_list_loop (fuel + 1) (some (.Value "\x7d")) acc s = .ok (acc, s))
    ∧ (∀ (fuel : Nat) (acc : List (Option Literal)) (s : ParserState) (tok : Literal),
        s.lookahead = some tok → tok.value ≠ .Value "\x7d" →
        statement_list_loop (fuel + 1) (some (.Value "\x7d")) acc s =
          match statement fuel s with
          | .error e => .error e
          | .ok (st, s1) =>
              statement_list_loop fuel (some (.Value "\x7d")) (acc ++ [st]) s1) := by
  constructor
  · intro fuel acc s tok h1 h2
    have hb : LiteralValue.beq tok.value (.Value "\x7d") = true :=
      (beq_value_iff _ _).mpr h2
    simp [statement_list_loop, h1, hb]
  · intro fuel acc s tok h1 h2
    have hb : LiteralValue.beq tok.value (.Value "\x7d") = false := by
      rcases hbeq : LiteralValue.beq tok.value (.Value "\x7d") with _ | _
      · rfl
      · exact absurd ((beq_value_iff _ _).mp hbeq) h2
    simp [statement_list_loop, h1, hb]

/-- Witness for claim C7: a `STRING`-kind token whose stored value is the
closing-brace string stops the loop, and a `NUMBER` token with value `1`
makes the loop parse another statement (which here aborts at `eat(";")`
on an empty stream). -/
theorem claim_C7_stop_compares_value_witness :
    statement_list_loop 5 (some (.Value "\x7d")) []
      { tokenizer := { string := [], cursor := 0 },
        lookahead := some (.mk "STRING" (.Value "\x7d")) }
      = .ok ([], { tokenizer := { string := [], cursor := 0 },
                   lookahead := some (.mk "STRING" (.Value "\x7d")) })
    ∧ statement_list_loop 11 (some (.Value "\x7d")) []
      { tokenizer := { string := [], cursor := 0 },
        lookahead := some (.mk "NUMBER" (.Value "1")) }
      = .error (.UnexpectedEndOfInput ";") := by
  constructor
  · exact claim_C7_statement_list_stop_compares_value.1 4 [] _ _ rfl rfl
  · have h := claim_C7_statement_list_stop_compares_value.2 10 []
      { tokenizer := { string := [], cursor := 0 },
        lookahead := some (.mk "NUMBER" (.Value "1")) }
      (.mk "NUMBER" (.Value "1")) rfl (by simp [Literal.value])
    exact h.trans (by rfl)

/-- Claim C8: when the sub-expression call returns a completed left
operand but the lookahead has become absent, `binary_expression` returns
`None`, discarding the operand, because its loop condition unwraps the
lookahead; concretely, an expression consisting of a single numeric
literal at end of input yields no node from `expression`. -/
theorem claim_C8_binary_expression_discards_left :
    (∀ (fuel : Nat) (s s' : ParserState) (l : Literal),
        primary_expression (fuel + 1) s = .ok (some l, s') →
        s'.lookahead = none →
        binary_expression (fuel + 2) "MULTIPLICATIVE_OPERATOR" s = .ok (none, s'))
    ∧ expression 32 { tokenizer := { string := "42".data, cursor := 2 },
                      lookahead := some (.mk "NUMBER" (.Value "42")) }
      = .ok (none, { tokenizer := { string := "42".data, cursor := 2 },
                     lookahead := none }) := by
  refine ⟨?_, rfl⟩
  intro fuel s s' l h1 h2
  simp [binary_expression, h1, binary_expression_loop, h2]

/-- Witness for claim C8: after consuming the single `NUMBER` token of the
source `42` the lookahead is none, and `binary_expression` discards the
already-built `NumericLiteral` node. -/
theorem claim_C8_discards_left_witness :
    binary_expression 23 "MULTIPLICATIVE_OPERATOR"
      { tokenizer := { string := "42".data, cursor := 2 },
        lookahead := some (.mk "NUMBER" (.Value "42")) }
      = .ok (none, { tokenizer := { string := "42".data, cursor := 2 },
                     lookahead := none }) :=
  claim_C8_binary_expression_discards_left.1 21 _ _ (.mk "NumericLiteral" (.Value "42"))
    rfl rfl

/-- Claim C9: the string-literal scan reads the character at the cursor
before the end-of-input check, so on any source whose opening quote is
never closed the scan reaches an index past the end of the buffer; in
particular tokenizing a quote followed by `ab` fails with an
out-of-bounds index 3 in a buffer of length 3. -/
theorem claim_C9_unterminated_string_out_of_bounds :
    (∀ (chars : List Char) (cursor : Nat) (acc : String),
        (∀ (i : Nat) (h : i < chars.length), cursor ≤ i → chars.get ⟨i, h⟩ ≠ '"') →
        ∃ idx, chars.length ≤ idx ∧ scanStringChars chars cursor acc = .error idx)
    ∧ (Tokenizer.new "\"ab").get_next_token = .error (.IndexOutOfBounds 3) := by
  refine ⟨?_, rfl⟩
  intro chars cursor acc hq
  exact scanStringGo_no_quote (chars.length - cursor) chars cursor acc (by omega) hq

/-- Witness for claim C9: a two-character buffer holding `ab`, scanned
from the start with no closing quote anywhere, ends in the out-of-bounds
branch. -/
theorem claim_C9_out_of_bounds_witness :
    ∃ idx, (['a', 'b'] : List Char).length ≤ idx
      ∧ scanStringChars ['a', 'b'] 0 "" = .error idx :=
  claim_C9_unterminated_string_out_of_bounds.1 ['a', 'b'] 0 "" (by decide)

/-- Claim C10: on any source whose first `get_next_token` call yields no
token (the empty string included), `parse` returns a `Program` whose
statement list is the one-element list holding `None`: `statement_list`
seeds its result with one `statement()` call before checking the
lookahead. -/
theorem claim_C10_empty_input_one_none_statement :
    ∀ (string : String) (fuel : Nat) (t' : Tokenizer),
      (Tokenizer.new string).get_next_token = .ok (none, t') →
      parse (fuel + 3) string = .ok (some (.mk "Program" (.NestedValueList [none]))) := by
  intro string fuel t' h
  simp [parse, h, program, statement_list, statement, statement_list_loop]

/-- Witness for claim C10: the empty source tokenizes to no first token,
and `parse` returns the one-element `Program` holding `None`. -/
theorem claim_C10_empty_input_witness :
    parse 3 "" = .ok (some (.mk "Program" (.NestedValueList [none]))) :=
  claim_C10_empty_input_one_none_statement "" 0 { string := [], cursor := 0 } rfl

end RDP
